import Mathlib

/-!
Verification of the BC Branded Table Generator (`src/app.py`).

The Python source is shallowly embedded: pure helper functions become Lean
functions over `String`/`ℚ`/`ℕ`; the Streamlit/HTTP side effects become
explicit parameters (transport statuses, poll traces, session-state booleans).
All definitions follow the source line by line; theorems at the end settle
the spec claims.
-/

namespace BrandedTable

/-! ## Generic Python string helpers -/

/-- Characters Python's `str.strip()` removes (ASCII whitespace). -/
def pyIsSpace (c : Char) : Bool :=
  c = ' ' || c = '\t' || c = '\n' || c = '\x0d' || c = '\x0b' || c = '\x0c'

/-- Python `s.strip()` on a char list. -/
def pyStripList (l : List Char) : List Char :=
  (l.dropWhile pyIsSpace).reverse.dropWhile pyIsSpace |>.reverse

/-- Python `s.strip()`. -/
def pyStrip (s : String) : String := ⟨pyStripList s.data⟩

/-- Python `s.lstrip("/")`: drop leading slash characters. -/
def lstripSlash (s : String) : String := ⟨s.data.dropWhile (· = '/')⟩

/-- Count occurrences of a character in a string. -/
def countChar (c : Char) (s : String) : Nat := s.data.count c

/-- ASCII lower-casing of one character (Python `str.lower` on ASCII). -/
def asciiLower (c : Char) : Char := c.toLower

/-- ASCII upper-casing of one character (Python `str.upper` on ASCII). -/
def asciiUpper (c : Char) : Char := c.toUpper

/-- Python `s.lower()` (ASCII fragment). -/
def pyLower (s : String) : String := ⟨s.data.map asciiLower⟩

/-- Python `s.upper()` (ASCII fragment). -/
def pyUpper (s : String) : String := ⟨s.data.map asciiUpper⟩

/-- Python `s.startswith(p)`. -/
def pyStartswith (s p : String) : Bool := p.data.isPrefixOf s.data

/-- One left-to-right, non-overlapping replacement pass over a char list,
matching Python `str.replace` (the replacement text is not rescanned).
Structural recursion on a fuel bounded by the input length (each step
consumes at least one input character), so the kernel can evaluate it. -/
def replaceListGo (pat rep : List Char) : Nat → List Char → List Char
  | 0, l => l
  | _ + 1, [] => []
  | fuel + 1, c :: rest =>
    if pat ≠ [] ∧ pat.isPrefixOf (c :: rest) then
      rep ++ replaceListGo pat rep fuel ((c :: rest).drop pat.length)
    else
      c :: replaceListGo pat rep fuel rest

/-- Python-style replacement over a char list. -/
def replaceList (pat rep : List Char) (l : List Char) : List Char :=
  replaceListGo pat rep l.length l

/-- Python `s.replace(pat, rep)` for a non-empty pattern. -/
def pyReplace (s pat rep : String) : String :=
  ⟨replaceList pat.data rep.data s.data⟩

/-! ## `html.escape` (Python stdlib, `quote=True`)

`html.escape` first replaces `&`, then `<`, `>`, `"`, `'`; since none of the
later passes touch the `&` introduced by the first, the chain is equivalent to
a single character-wise map. -/

/-- Entity for one character under `html.escape(s, quote=True)`. -/
def escChar (c : Char) : List Char :=
  if c = '&' then "&amp;".data
  else if c = '<' then "&lt;".data
  else if c = '>' then "&gt;".data
  else if c = '"' then "&quot;".data
  else if c = '\'' then "&#x27;".data
  else [c]

/-- Python `html.escape(s, quote=True)` (the default used throughout app.py). -/
def htmlEscape (s : String) : String := ⟨s.data.flatMap escChar⟩

theorem escChar_safe (c d : Char) (hd : d ∈ escChar c) :
    d ≠ '<' ∧ d ≠ '>' ∧ d ≠ '"' := by
  unfold escChar at hd
  split_ifs at hd with h1 h2 h3 h4 h5
  all_goals first
    | (refine ⟨?_, ?_, ?_⟩ <;> rintro rfl <;> revert hd <;> decide)
    | (simp at hd; subst hd; exact ⟨h2, h3, h4⟩)

theorem htmlEscape_no_lt (s : String) : '<' ∉ (htmlEscape s).data := by
  simp only [htmlEscape, List.mem_flatMap]
  rintro ⟨c, _, hmem⟩
  exact (escChar_safe c '<' hmem).1 rfl

theorem htmlEscape_no_gt (s : String) : '>' ∉ (htmlEscape s).data := by
  simp only [htmlEscape, List.mem_flatMap]
  rintro ⟨c, _, hmem⟩
  exact (escChar_safe c '>' hmem).2.1 rfl

theorem htmlEscape_no_quot (s : String) : '"' ∉ (htmlEscape s).data := by
  simp only [htmlEscape, List.mem_flatMap]
  rintro ⟨c, _, hmem⟩
  exact (escChar_safe c '"' hmem).2.2 rfl

/-! ## Decimal integers and Python `float()` / formatting on exact rationals

Python floats are modelled as exact rationals: every arithmetic step in
`app.py` that the claims touch (parsing decimal strings, `v/denom*100`,
clamping, 2-decimal formatting) is exact on the decimal inputs involved. -/

/-- The decimal digit character for `d < 10`. -/
def digitChar (d : Nat) : Char := Char.ofNat (48 + d)

/-- Decimal digits of `n`, least significant first. -/
def natToDigitsRev (n : Nat) : List Char :=
  if h : n = 0 then [] else digitChar (n % 10) :: natToDigitsRev (n / 10)
  decreasing_by exact Nat.div_lt_self (Nat.pos_of_ne_zero h) (by norm_num)

/-- Decimal rendering of a natural number (Python `str` on a non-negative int). -/
def natToDecStr (n : Nat) : String :=
  if n = 0 then "0" else ⟨(natToDigitsRev n).reverse⟩

/-- Decimal rendering of an integer (Python `str(int)`). -/
def intToDecStr (i : Int) : String :=
  if i < 0 then "-" ++ natToDecStr i.natAbs else natToDecStr i.natAbs

/-- Python 3 `round(x)`: round half to even (banker's rounding). -/
def roundHalfEven (q : ℚ) : Int :=
  let f := ⌊q⌋
  let r := q - (f : ℚ)
  if r < 1/2 then f
  else if 1/2 < r then f + 1
  else if f % 2 = 0 then f else f + 1

/-- Two-digit zero-padded rendering of `m < 100`. -/
def pad2 (m : Nat) : String :=
  if m < 10 then "0" ++ natToDecStr m else natToDecStr m

/-- Python `f"{q:.2f}"` on the exact rational model: round `q*100` half to
even, render with exactly two decimals (sign taken from `q`). -/
def fmt2 (q : ℚ) : String :=
  let n := roundHalfEven (q * 100)
  let sign := if q < 0 then "-" else ""
  let a := n.natAbs
  sign ++ natToDecStr (a / 100) ++ "." ++ pad2 (a % 100)

/-- Split a char list into its leading digits and the rest. -/
def splitDigits (l : List Char) : List Char × List Char :=
  (l.takeWhile Char.isDigit, l.dropWhile Char.isDigit)

/-- Numeric value of a digit string, most significant first. -/
def digitsVal (l : List Char) : Nat :=
  l.foldl (fun a c => a * 10 + (c.toNat - 48)) 0

/-- Python `float(s)` on finite decimal literals:
`sign? (digits+ ('.' digits*)? | '.' digits+) (('e'|'E') sign? digits+)?`.
Returns `none` where `float()` raises `ValueError`.  (`inf`/`nan` and PEP 515
underscores are not representable in the rational model; no call site in
`app.py` reached by the claims feeds them.) -/
def pyFloatOpt (s : String) : Option ℚ :=
  let l := s.data
  let signSplit : Bool × List Char :=
    match l with
    | '-' :: rest => (true, rest)
    | '+' :: rest => (false, rest)
    | _ => (false, l)
  let neg := signSplit.1
  let l1 := signSplit.2
  let ipSplit := splitDigits l1
  let ip := ipSplit.1
  let l2 := ipSplit.2
  let fpSplit : List Char × List Char :=
    match l2 with
    | '.' :: rest => splitDigits rest
    | _ => ([], l2)
  let fp := fpSplit.1
  let l3 := if l2.head? = some '.' then fpSplit.2 else l2
  if ip.isEmpty && fp.isEmpty then none
  else
    let m : ℚ := (if neg then -1 else 1) * (digitsVal (ip ++ fp) : ℚ) / ((10 : ℚ) ^ fp.length)
    match l3 with
    | [] => some m
    | e :: rest =>
      if e = 'e' || e = 'E' then
        let esignSplit : Bool × List Char :=
          match rest with
          | '-' :: r => (true, r)
          | '+' :: r => (false, r)
          | _ => (false, rest)
        let edSplit := splitDigits esignSplit.2
        if edSplit.1.isEmpty || !edSplit.2.isEmpty then none
        else some (if esignSplit.1 then m / (10 : ℚ) ^ digitsVal edSplit.1
                   else m * (10 : ℚ) ^ digitsVal edSplit.1)
      else none

/-- Characters kept by `re.sub(r"[^0-9.\-]", "", v)` (src/app.py:1670,1777). -/
def numAllowed (c : Char) : Bool := c.isDigit || c = '.' || c = '-'

/-! ## Column helpers from src/app.py

A cell is `Option String`: `none` models a pandas missing value (`pd.isna`),
`some s` models a value whose `str()` rendering is `s`. -/

/-- `parse_number` (src/app.py:1773-1780): strip commas, drop every character
outside `[0-9.\-]`, `float()` the rest; empty string or `ValueError` → `0.0`. -/
def parse_number (v : Option String) : ℚ :=
  let s := v.getD ""
  let s1 := pyReplace s "," ""
  let s2 : List Char := s1.data.filter numAllowed
  if s2.isEmpty then 0
  else match pyFloatOpt ⟨s2⟩ with
    | some q => q
    | none => 0

/-- `guess_column_type` (src/app.py:1662-1676).  `numericDtype` models
`pd.api.types.is_numeric_dtype(series)`; `values` is the column, `none` for
nulls.  Sampling: `series.dropna().astype(str).head(20)`. -/
def guess_column_type (numericDtype : Bool) (values : List (Option String)) : String :=
  if numericDtype then "num"
  else
    let sample := (values.filterMap id).take 20
    if sample.isEmpty then "text"
    else
      let numeric_like :=
        sample.countP (fun v => (pyFloatOpt ⟨v.data.filter numAllowed⟩).isSome)
      if numeric_like ≥ max 3 (sample.length / 2) then "num" else "text"

/-- `re.fullmatch(r"-?\d+(\.\d+)?", plain)` (src/app.py:1800). -/
def isPlainNumber (l : List Char) : Bool :=
  let l1 := match l with
    | '-' :: r => r
    | _ => l
  let ipSplit := splitDigits l1
  if ipSplit.1.isEmpty then false
  else
    match ipSplit.2 with
    | [] => true
    | '.' :: r2 =>
      let fpSplit := splitDigits r2
      !fpSplit.1.isEmpty && fpSplit.2.isEmpty
    | _ => false

/-- `format_numeric_for_display` (src/app.py:1781-1814) on the rational model
of floats: limits plain numbers to two decimals, trims trailing zeros, shows
near-integers as integers, and leaves anything containing other symbols
untouched. -/
def format_numeric_for_display (raw_val : Option String) : String :=
  match raw_val with
  | none => ""
  | some raw =>
    let s := pyStrip raw
    if s.data.any (fun c => !(c.isDigit || c = '.' || c = '-' || c = ',' || pyIsSpace c)) then s
    else
      let plain : List Char := s.data.filter (fun c => !(c = ',' || pyIsSpace c))
      if !isPlainNumber plain then s
      else
        match pyFloatOpt ⟨plain⟩ with
        | none => s
        | some num =>
          let r := roundHalfEven num
          if |num - (r : ℚ)| < 1 / 10 ^ 12 then intToDecStr r
          else
            let out := fmt2 num
            let out1 : List Char := (out.data.reverse.dropWhile (· = '0')).reverse
            let out2 : List Char := (out1.reverse.dropWhile (· = '.')).reverse
            ⟨out2⟩

/-- Whether `sub` occurs as a contiguous sublist. -/
def listContainsSub (sub : List Char) : List Char → Bool
  | [] => sub.isEmpty
  | c :: rest => sub.isPrefixOf (c :: rest) || listContainsSub sub rest

/-- Python `sub in s`. -/
def pyContains (s sub : String) : Bool := listContainsSub sub.data s.data

/-- `re.sub(r"\s+", " ", s)`: collapse whitespace runs to a single space. -/
def collapseWs : List Char → List Char
  | [] => []
  | c :: rest =>
    if pyIsSpace c then ' ' :: collapseWs (rest.dropWhile pyIsSpace)
    else c :: collapseWs rest
  termination_by l => l.length
  decreasing_by
    · have := (List.dropWhile_sublist (l := rest) pyIsSpace).length_le
      simp only [List.length_cons]
      omega
    · simp

/-- Python `str.title()` on ASCII: a letter is upper-cased when the previous
character is not a letter, lower-cased otherwise. -/
def pyTitleGo : Bool → List Char → List Char
  | _, [] => []
  | prev, c :: rest =>
    (if c.isAlpha then (if prev then asciiLower c else asciiUpper c) else c)
      :: pyTitleGo c.isAlpha rest

/-- Python `s.title()` (ASCII fragment). -/
def pyTitle (s : String) : String := ⟨pyTitleGo false s.data⟩

/-- `format_column_header` (src/app.py:1678-1705); the code after the first
unconditional `return s` (1707-1715) is dead and not modelled. -/
def format_column_header (col_name : String) (mode : String) : String :=
  let s := col_name
  let m := pyLower (pyStrip mode)
  if pyStartswith m "keep" then s
  else
    let s2a := pyStrip (pyReplace s "_" " ")
    let s2 : String := ⟨collapseWs s2a.data⟩
    if s2.data.isEmpty then s
    else if pyStartswith m "sentence" then
      match s2.data with
      | [] => s2
      | c :: rest => ⟨asciiUpper c :: rest.map asciiLower⟩
    else if pyStartswith m "title" then pyTitle s2
    else if pyContains m "caps" then pyUpper s2
    else s

/-! ## Footer-notes mini-markdown (src/app.py:1766-1771)

`re.sub(r"\*\*(.+?)\*\*", ...)` / `re.sub(r"\*(.+?)\*", ...)`: non-greedy,
`.` does not match a newline, scanning resumes after each replacement. -/

/-- Find the earliest decomposition `l = inner ++ pat ++ rest` with `inner`
non-empty and newline-free; returns `(inner, rest)`. -/
def findCloseAux (pat : List Char) (acc : List Char) : List Char → Option (List Char × List Char)
  | [] => none
  | c :: rest =>
    if acc ≠ [] && pat.isPrefixOf (c :: rest) then some (acc.reverse, (c :: rest).drop pat.length)
    else if c = '\n' then none
    else findCloseAux pat (c :: acc) rest

theorem findCloseAux_snd_le (pat : List Char) :
    ∀ (l acc : List Char) (r : List Char × List Char),
      findCloseAux pat acc l = some r → r.2.length ≤ l.length := by
  intro l
  induction l with
  | nil => intro acc r h; simp [findCloseAux] at h
  | cons c rest ih =>
    intro acc r h
    simp only [findCloseAux] at h
    split_ifs at h with h1 h2
    · cases h
      simp only [List.length_drop, List.length_cons]
      omega
    · exact le_trans (ih _ _ h) (by simp)

/-- `re.sub(r"\*\*(.+?)\*\*", r"<strong>\1</strong>", ·)`. -/
def subBold : List Char → List Char
  | '*' :: '*' :: rest =>
    match h : findCloseAux ['*', '*'] [] rest with
    | some r => "<strong>".data ++ r.1 ++ "</strong>".data ++ subBold r.2
    | none => '*' :: '*' :: subBold rest
  | c :: rest => c :: subBold rest
  | [] => []
  termination_by l => l.length
  decreasing_by
    · have := findCloseAux_snd_le ['*', '*'] rest [] r h
      simp only [List.length_cons]
      omega
    · simp only [List.length_cons]; omega
    · simp only [List.length_cons]; omega

/-- `re.sub(r"\*(.+?)\*", r"<em>\1</em>", ·)`. -/
def subEm : List Char → List Char
  | '*' :: rest =>
    match h : findCloseAux ['*'] [] rest with
    | some r => "<em>".data ++ r.1 ++ "</em>".data ++ subEm r.2
    | none => '*' :: subEm rest
  | c :: rest => c :: subEm rest
  | [] => []
  termination_by l => l.length
  decreasing_by
    · have := findCloseAux_snd_le ['*'] rest [] r h
      simp only [List.length_cons]
      omega
    · simp only [List.length_cons]; omega
    · simp only [List.length_cons]; omega

/-- Escaped, bold/italic-substituted, `<br>`-joined footer notes
(src/app.py:1766-1771). -/
def footerNotesHtml (notes : String) : String :=
  ⟨replaceList "\n".data "<br>".data (subEm (subBold (htmlEscape notes).data))⟩

/-! ## The renderer (src/app.py:1718-1959) -/

/-- Python truthiness of a string. -/
def strTrue (s : String) : Bool := !s.isEmpty

/-- The in-memory table: column (name, `is_numeric_dtype`) pairs and rows of
cells (`none` = missing value, `some s` = value with `str()` rendering `s`). -/
structure DataFrame where
  cols : List (String × Bool)
  rows : List (List (Option String))

/-- Values of column `i`, over all rows. -/
def colValues (df : DataFrame) (i : Nat) : List (Option String) :=
  df.rows.map (fun r => r.getD i none)

/-- Normalization denominator for one bar column (src/app.py:1816-1836): the
override if it parses and is positive, else the column max of the parsed
values, else `1.0`. -/
def bar_max_entry (colVals : List (Option String)) (override : Option String) : ℚ :=
  let viaOverride : Option ℚ :=
    match override with
    | none => none
    | some ov =>
      let ovs := pyStrip ov
      if ovs.data.isEmpty then none
      else match pyFloatOpt ovs with
        | none => none
        | some q => if q > 0 then some q else none
  match viaOverride with
  | some q => q
  | none =>
    let vals := colVals.map parse_number
    let m : ℚ := match vals with
      | [] => 0
      | v :: vs => vs.foldl max v
    if m > 0 then m else 1

/-- `bar_max.get(col, 1.0) or 1.0` (src/app.py:1866). -/
def bar_denom (colVals : List (Option String)) (override : Option String) : ℚ :=
  let d := bar_max_entry colVals override
  if d = 0 then 1 else d

/-- Bar fill percentage of one cell (src/app.py:1865-1867). -/
def bar_fill_pct (colVals : List (Option String)) (override : Option String)
    (v : Option String) : ℚ :=
  max 0 (min 100 (parse_number v / bar_denom colVals override * 100))

/-- A non-bar body cell (src/app.py:1884). -/
def plainCellHtml (display_val : String) : String :=
  "<td><div class=\"dw-cell\" title=\"" ++ htmlEscape display_val ++ "\">"
    ++ htmlEscape display_val ++ "</div></td>"

/-- A bar body cell (src/app.py:1869-1882), whitespace exactly as in the
source f-string. -/
def barCellHtml (display_val : String) (pct : ℚ) : String :=
  "\n                    <td class=\"dw-bar-td\">\n                      <div class=\"dw-bar-wrap\" title=\""
    ++ htmlEscape display_val
    ++ "\">\n                        <div class=\"dw-bar-track\">\n                          <div class=\"dw-bar-fill\" style=\"width:"
    ++ fmt2 pct
    ++ "%;\"></div>\n                          <div class=\"dw-bar-text\">\n                            <span class=\"dw-bar-pill\">"
    ++ htmlEscape display_val
    ++ "</span>\n                          </div>\n                        </div>\n                      </div>\n                    </td>\n                    "

/-- A header cell (src/app.py:1849); `safe_label` is passed already escaped,
as in the source. -/
def headCellHtml (col_type cls safe_label : String) : String :=
  "<th scope=\"col\" data-type=\"" ++ col_type ++ "\" class=\"" ++ cls ++ "\">"
    ++ safe_label ++ "</th>"

/-- The keyword parameters of `generate_table_html_from_df`
(src/app.py:1718-1743), with the source's defaults. -/
structure RenderArgs where
  df : DataFrame
  title : String
  subtitle : String
  brand_logo_url : String
  brand_logo_alt : String
  brand_class : String
  striped : Bool := true
  center_titles : Bool := false
  branded_title_color : Bool := true
  show_search : Bool := true
  show_pager : Bool := true
  show_embed : Bool := true
  show_page_numbers : Bool := true
  show_header : Bool := true
  show_footer : Bool := true
  footer_logo_align : String := "Center"
  cell_align : String := "Center"
  footer_logo_h : Int := 36
  show_footer_notes : Bool := false
  footer_notes : String := ""
  bar_columns : List String := []
  bar_max_overrides : List (String × String) := []
  bar_fixed_w : Int := 200
  header_style : String := "Keep original"

/-- CSS block substituted for `[[STRIPE_CSS]]` when `striped` (src/app.py:1892-1895). -/
def stripeCssOn : String :=
  "\n    #bt-block tbody tr:not(.dw-empty):nth-child(odd) td\x7bbackground:var(--stripe);\x7d\n    #bt-block tbody tr:not(.dw-empty):nth-child(even) td\x7bbackground:#ffffff;\x7d\n"

/-- CSS block substituted for `[[STRIPE_CSS]]` when not `striped` (src/app.py:1897-1899). -/
def stripeCssOff : String :=
  "\n    #bt-block tbody tr:not(.dw-empty) td\x7bbackground:#ffffff;\x7d\n"

/-- `generate_table_html_from_df` (src/app.py:1718-1959).  The module-level
constant `HTML_TEMPLATE_TABLE` is passed in as `template`; everything else
follows the source line by line. -/
def generate_table_html_from_df (template : String) (a : RenderArgs) : String :=
  let df := a.df
  let bar_fixed_w : Int := max 120 (min 360 a.bar_fixed_w)
  let footer_logo_h : Int := max 16 (min 90 a.footer_logo_h)
  let footer_notes := pyStrip a.footer_notes
  let footer_notes_html :=
    if a.show_footer_notes && strTrue footer_notes then footerNotesHtml footer_notes else ""
  let isBar := fun (name : String) => a.bar_columns.contains name
  let overrideFor := fun (name : String) =>
    (a.bar_max_overrides.find? (fun p => p.1 = name)).map (·.2)
  let head_cells := df.cols.enum.map (fun p =>
    let col_type := guess_column_type p.2.2 (colValues df p.1)
    let safe_label := htmlEscape (format_column_header p.2.1 a.header_style)
    let is_bar_col := isBar p.2.1 && col_type = "num"
    headCellHtml col_type (if is_bar_col then "dw-bar-col" else "") safe_label)
  let table_head_html := String.intercalate "\n              " head_cells
  let row_html_snippets := df.rows.map (fun row =>
    let cells := df.cols.enum.map (fun p =>
      let raw_val := row.getD p.1 none
      let display_val := format_numeric_for_display raw_val
      if isBar p.2.1 && guess_column_type p.2.2 (colValues df p.1) = "num" then
        barCellHtml display_val (bar_fill_pct (colValues df p.1) (overrideFor p.2.1) raw_val)
      else plainCellHtml display_val)
    "            <tr>" ++ String.join cells ++ "</tr>")
  let table_rows_html := String.intercalate "\n" row_html_snippets
  let colspan := natToDecStr df.cols.length
  let stripe_css := if a.striped then stripeCssOn else stripeCssOff
  let header_class := if a.center_titles then "centered" else ""
  let title_class := if a.branded_title_color then "branded" else ""
  let header_vis := if a.show_header then "" else "vi-hide"
  let footer_vis := if a.show_footer then "" else "vi-hide"
  let controls_vis := if a.show_search || a.show_pager || a.show_embed then "" else "vi-hide"
  let search_vis := if a.show_search then "" else "vi-hide"
  let pager_vis := if a.show_pager then "" else "vi-hide"
  let embed_vis := if a.show_embed then "" else "vi-hide"
  let page_status_vis := if a.show_page_numbers && a.show_pager then "" else "vi-hide"
  let fla := pyLower (pyStrip (if strTrue a.footer_logo_align then a.footer_logo_align else "Center"))
  let fla := if a.show_footer_notes && fla = "center" then "right" else fla
  let footer_align_class :=
    if fla = "center" then "footer-center" else if fla = "left" then "footer-left" else ""
  let ca := pyLower (pyStrip (if strTrue a.cell_align then a.cell_align else "Center"))
  let cell_align_class :=
    if ca = "left" then "align-left" else if ca = "right" then "align-right" else "align-center"
  let h := pyReplace template "[[TABLE_HEAD]]" table_head_html
  let h := pyReplace h "[[TABLE_ROWS]]" table_rows_html
  let h := pyReplace h "[[COLSPAN]]" colspan
  let h := pyReplace h "[[TITLE]]" (htmlEscape a.title)
  let h := pyReplace h "[[SUBTITLE]]" (htmlEscape a.subtitle)
  let h := pyReplace h "[[BRAND_LOGO_URL]]" a.brand_logo_url
  let h := pyReplace h "[[BRAND_LOGO_ALT]]" (htmlEscape a.brand_logo_alt)
  let h := pyReplace h "[[BRAND_CLASS]]" a.brand_class
  let h := pyReplace h "[[STRIPE_CSS]]" stripe_css
  let h := pyReplace h "[[HEADER_ALIGN_CLASS]]" header_class
  let h := pyReplace h "[[TITLE_CLASS]]" title_class
  let h := pyReplace h "[[HEADER_VIS_CLASS]]" header_vis
  let h := pyReplace h "[[FOOTER_VIS_CLASS]]" footer_vis
  let h := pyReplace h "[[CONTROLS_VIS_CLASS]]" controls_vis
  let h := pyReplace h "[[SEARCH_VIS_CLASS]]" search_vis
  let h := pyReplace h "[[PAGER_VIS_CLASS]]" pager_vis
  let h := pyReplace h "[[EMBED_VIS_CLASS]]" embed_vis
  let h := pyReplace h "[[PAGE_STATUS_VIS_CLASS]]" page_status_vis
  let h := pyReplace h "[[FOOTER_ALIGN_CLASS]]" footer_align_class
  let h := pyReplace h "[[CELL_ALIGN_CLASS]]" cell_align_class
  let h := pyReplace h "[[BAR_FIXED_W]]" (intToDecStr bar_fixed_w)
  let h := pyReplace h "[[FOOTER_LOGO_H]]" (intToDecStr footer_logo_h)
  let h := pyReplace h "[[FOOTER_NOTES_VIS_CLASS]]"
    (if a.show_footer_notes && strTrue footer_notes_html then "" else "vi-hide")
  let h := pyReplace h "[[FOOTER_NOTES_HTML]]" footer_notes_html
  h

/-! ## Repo auto-naming (src/app.py:47-78)

`datetime.datetime.utcnow()` is modelled by passing the current UTC month and
year explicitly; the function uses nothing else of the clock. -/

/-- `BRAND_REPO_PREFIX_FULL` (src/app.py:47-54). -/
def BRAND_REPO_PREFIX_FULL : List (String × String) :=
  [("Action Network", "ActionNetwork"),
   ("Canada Sports Betting", "CanadaSportsBetting"),
   ("VegasInsider", "VegasInsider"),
   ("RotoGrinders", "RotoGrinders"),
   ("AceOdds", "AceOdds"),
   ("BOLAVIP", "BOLAVIP")]

/-- The `MONTH_CODE` dict (src/app.py:56-69). -/
def MONTH_CODE_TABLE : List (Nat × String) :=
  [(1, "j"), (2, "f"), (3, "m"), (4, "a"), (5, "y"), (6, "u"),
   (7, "l"), (8, "g"), (9, "s"), (10, "o"), (11, "n"), (12, "d")]

/-- `MONTH_CODE.get(m, "x")` (src/app.py:76). -/
def MONTH_CODE (m : Nat) : String :=
  ((MONTH_CODE_TABLE.find? (fun p => p.1 = m)).map (fun p => p.2)).getD "x"

/-- Python `s[-2:]`. -/
def lastTwo (s : String) : String := ⟨s.data.drop (s.data.length - 2)⟩

/-- `suggested_repo_name` (src/app.py:72-78), with `utcnow()`'s month and
year passed explicitly. -/
def suggested_repo_name (brand : String) (month year : Nat) : String :=
  let b := pyStrip brand
  let prefixFull := ((BRAND_REPO_PREFIX_FULL.find? (fun p => p.1 = b)).map (·.2)).getD "ActionNetwork"
  let mm := MONTH_CODE month
  let yy := lastTwo (natToDecStr year)
  prefixFull ++ "t" ++ mm ++ yy

/-! ## GitHub transport models

HTTP is modelled by passing each call's observable response (status code,
relevant JSON fields) as explicit parameters and recording the requests the
code would issue. -/

/-- Body of the `PUT /repos/{owner}/{repo}/contents/{path}` request
(src/app.py:245-247). -/
structure PutPayload where
  message : String
  content : String
  branch : String
  sha : Option String
deriving DecidableEq, Repr

/-- Responses visible to `upload_file_to_github`: the status of the initial
GET, the `sha` field of its JSON body (`""` when absent), and the status of
the PUT. -/
structure UploadTransport where
  getStatus : Nat
  getSha : String
  putStatus : Nat

/-- PUT requests issued plus the error surfaced (`RuntimeError` message), if any. -/
structure UploadResult where
  putCalls : List PutPayload
  error : Option String
deriving DecidableEq, Repr

/-- Base64 alphabet character `n` (RFC 4648, as `base64.b64encode`). -/
def b64Char (n : Nat) : Char :=
  "ABCDEFGHIJKLMNOPQRSTUVWXYZabcdefghijklmnopqrstuvwxyz0123456789+/".data.getD n 'A'

/-- Base64 encoding of a byte list, 3 bytes → 4 chars with `=` padding. -/
def b64chunks : List Nat → List Char
  | [] => []
  | [a] => [b64Char (a / 4), b64Char (a % 4 * 16), '=', '=']
  | [a, b] => [b64Char (a / 4), b64Char (a % 4 * 16 + b / 16), b64Char (b % 16 * 4), '=']
  | a :: b :: c :: rest =>
    b64Char (a / 4) :: b64Char (a % 4 * 16 + b / 16) :: b64Char (b % 16 * 4 + c / 64)
      :: b64Char (c % 64) :: b64chunks rest

/-- `base64.b64encode(bytes).decode("utf-8")`. -/
def b64encode (bytes : List Nat) : String := ⟨b64chunks bytes⟩

/-- UTF-8 bytes of one character. -/
def utf8EncodeChar (c : Char) : List Nat :=
  let n := c.toNat
  if n < 0x80 then [n]
  else if n < 0x800 then [0xC0 + n / 64, 0x80 + n % 64]
  else if n < 0x10000 then [0xE0 + n / 4096, 0x80 + (n / 64) % 64, 0x80 + n % 64]
  else [0xF0 + n / 262144, 0x80 + (n / 4096) % 64, 0x80 + (n / 64) % 64, 0x80 + n % 64]

/-- `content.encode("utf-8")` as a byte list. -/
def utf8Bytes (s : String) : List Nat := s.data.flatMap utf8EncodeChar

/-- `upload_file_to_github` (src/app.py:222-251): GET the file's `sha`; 200 →
attach it to the PUT (when non-empty, `if sha:`), 404 → PUT without `sha`,
anything else → `RuntimeError` before any PUT; PUT status outside
`{200, 201}` → `RuntimeError`. -/
def upload_file_to_github (t : UploadTransport) (content message branch : String) : UploadResult :=
  if t.getStatus ≠ 200 ∧ t.getStatus ≠ 404 then
    { putCalls := [], error := some "Error Checking File" }
  else
    let sha : Option String :=
      if t.getStatus = 200 ∧ t.getSha ≠ "" then some t.getSha else none
    let encoded := b64encode (utf8Bytes content)
    let payload : PutPayload := ⟨message, encoded, branch, sha⟩
    if t.putStatus = 200 ∨ t.putStatus = 201 then
      { putCalls := [payload], error := none }
    else
      { putCalls := [payload], error := some "Error Uploading File" }

/-- Result of `ensure_pages_enabled`: whether the enable POST was sent, and
the error surfaced, if any. -/
structure PagesOutcome where
  posted : Bool
  error : Option String
deriving DecidableEq, Repr

/-- `ensure_pages_enabled` (src/app.py:204-219): GET the Pages config; 200 →
no-op, 403 → silently skipped, 404 → POST the enable request (error unless it
returns 201/202), anything else → `RuntimeError`. -/
def ensure_pages_enabled (getStatus postStatus : Nat) : PagesOutcome :=
  if getStatus = 200 then { posted := false, error := none }
  else if getStatus ≠ 404 ∧ getStatus ≠ 403 then
    { posted := false, error := some "Error Checking GitHub Pages" }
  else if getStatus = 403 then { posted := false, error := none }
  else if postStatus = 201 ∨ postStatus = 202 then { posted := true, error := none }
  else { posted := true, error := some "Error Enabling GitHub Pages" }

/-- `compute_pages_url` (src/app.py:2040-2044). -/
def compute_pages_url (user repo filename : String) : String :=
  let u := pyStrip user
  let r := pyStrip repo
  let f0 := pyStrip (lstripSlash filename)
  let f := if f0 = "" then "branded_table.html" else f0
  "https://" ++ u ++ ".github.io/" ++ r ++ "/" ++ f

/-! ## Liveness poll (src/app.py:2062-2079)

Time model: iteration `k` of the `while time.time() < end_time` loop starts
at `k * interval_sec` (each iteration sleeps `interval_sec`); the loop thus
runs at most `⌈timeout_sec / interval_sec⌉` iterations.  `responses k` is the
outcome of the `k`-th GET: `some status`, or `none` when `requests.get`
raised (swallowed by the bare `except`). -/

/-- The poll loop body: succeed on a 200, otherwise keep polling while fuel
(remaining loop iterations) lasts. -/
def pagesPollLoop (responses : Nat → Option Nat) (k : Nat) : Nat → Bool
  | 0 => false
  | fuel + 1 =>
    if responses k = some 200 then true
    else pagesPollLoop responses (k + 1) fuel

/-- Number of loop iterations: `k * interval < timeout` iff
`k < ⌈timeout / interval⌉` (for `interval > 0`). -/
def numPolls (timeout_sec interval_sec : Nat) : Nat :=
  (timeout_sec + interval_sec - 1) / interval_sec

/-- `wait_until_pages_live` (src/app.py:2062-2079). -/
def wait_until_pages_live (url : String) (responses : Nat → Option Nat)
    (timeout_sec interval_sec : Nat) : Bool :=
  if url = "" then false
  else pagesPollLoop responses 0 (numPolls timeout_sec interval_sec)

/-! ## The publish gate and click handler (src/app.py:2748-2824) -/

/-- The session-state inputs the gate reads. -/
structure PublishGate where
  html_generated : Bool
  publish_owner : String
  repo_name : String
  widget_file_name : String
  installation_token : String
  created_by_user : String
  file_exists : Bool
  allow_swap : Bool

/-- `swap_confirmed = (not file_exists) or allow_swap` (src/app.py:2750). -/
def swap_confirmed (g : PublishGate) : Bool := !g.file_exists || g.allow_swap

/-- `can_publish` (src/app.py:2751-2759). -/
def can_publish (g : PublishGate) : Bool :=
  g.html_generated && strTrue g.publish_owner && strTrue g.repo_name
    && strTrue g.widget_file_name && strTrue g.installation_token
    && strTrue g.created_by_user && swap_confirmed g

/-- What the click handler produced: PUT requests issued, the error shown by
`st.error` (if the `try` block raised), the published URL stored in session
state, and whether the still-deploying warning was shown. -/
structure PublishOutcome where
  putCalls : List PutPayload
  error : Option String
  published_url : Option String
  warning : Bool
deriving DecidableEq, Repr

/-- The publish click handler (src/app.py:2761-2824).  The button is rendered
with `disabled=not can_publish`, so a click only fires when `can_publish`;
`ensure_repo_exists` may raise (modelled by `repoCheckError`);
`ensure_pages_enabled` sits in its own `try/except: pass` and never aborts;
then the upload, URL computation and the 90s/2s liveness poll. -/
def publish_flow (g : PublishGate) (clickRequested : Bool) (htmlCode : String)
    (repoCheckError : Option String) (pagesT : Nat × Nat) (upT : UploadTransport)
    (liveResponses : Nat → Option Nat) : PublishOutcome :=
  let clicked := clickRequested && can_publish g
  if !clicked then { putCalls := [], error := none, published_url := none, warning := false }
  else if !strTrue htmlCode then
    { putCalls := [], error := some "No generated HTML found. Click Confirm & Save first.",
      published_url := none, warning := false }
  else
    match repoCheckError with
    | some e => { putCalls := [], error := some e, published_url := none, warning := false }
    | none =>
      let _pages := ensure_pages_enabled pagesT.1 pagesT.2
      let up := upload_file_to_github upT htmlCode
        ("Add/Update " ++ g.widget_file_name ++ " from Branded Table App") "main"
      match up.error with
      | some e => { putCalls := up.putCalls, error := some e, published_url := none, warning := false }
      | none =>
        let pages_url := compute_pages_url g.publish_owner g.repo_name g.widget_file_name
        let live := wait_until_pages_live pages_url liveResponses 90 2
        { putCalls := up.putCalls, error := none, published_url := some pages_url,
          warning := !live }

/-! ## Supporting lemmas -/

theorem countChar_append (c : Char) (a b : String) :
    countChar c (a ++ b) = countChar c a + countChar c b := by
  simp [countChar, String.data_append]

theorem countChar_htmlEscape_lt (s : String) : countChar '<' (htmlEscape s) = 0 :=
  List.count_eq_zero.mpr (htmlEscape_no_lt s)

theorem countChar_htmlEscape_quot (s : String) : countChar '"' (htmlEscape s) = 0 :=
  List.count_eq_zero.mpr (htmlEscape_no_quot s)

theorem digitChar_isDigit (d : Nat) (h : d < 10) : (digitChar d).isDigit := by
  interval_cases d <;> decide

theorem natToDigitsRev_digits (n : Nat) : ∀ c ∈ natToDigitsRev n, c.isDigit := by
  induction n using Nat.strong_induction_on with
  | _ n ih =>
    intro c hc
    rw [natToDigitsRev] at hc
    split_ifs at hc with h
    · simp at hc
    · rcases List.mem_cons.mp hc with h1 | h1
      · exact h1 ▸ digitChar_isDigit _ (Nat.mod_lt _ (by norm_num))
      · exact ih (n / 10) (Nat.div_lt_self (Nat.pos_of_ne_zero h) (by norm_num)) c h1

theorem natToDecStr_digits (n : Nat) : ∀ c ∈ (natToDecStr n).data, c.isDigit := by
  unfold natToDecStr
  split_ifs
  · intro c hc; simp at hc; subst hc; decide
  · intro c hc
    exact natToDigitsRev_digits n c (List.mem_reverse.mp hc)

/-- Every character `fmt2` emits is a digit, a minus sign, or a dot. -/
theorem fmt2_chars (q : ℚ) : ∀ c ∈ (fmt2 q).data, c.isDigit ∨ c = '-' ∨ c = '.' := by
  unfold fmt2
  intro c hc
  simp only [String.data_append, List.mem_append] at hc
  rcases hc with ((hs | h1) | hdot) | h2
  · split_ifs at hs
    · simp at hs; subst hs; right; left; rfl
    · simp at hs
  · exact Or.inl (natToDecStr_digits _ c h1)
  · simp at hdot; subst hdot; right; right; rfl
  · unfold pad2 at h2
    split_ifs at h2
    · simp only [String.data_append, List.mem_append] at h2
      rcases h2 with h2 | h2
      · simp at h2; subst h2; left; decide
      · exact Or.inl (natToDecStr_digits _ c h2)
    · exact Or.inl (natToDecStr_digits _ c h2)

theorem countChar_fmt2_lt (q : ℚ) : countChar '<' (fmt2 q) = 0 := by
  refine List.count_eq_zero.mpr (fun h => ?_)
  rcases fmt2_chars q '<' h with h1 | h1 | h1 <;> simp_all

theorem countChar_fmt2_quot (q : ℚ) : countChar '"' (fmt2 q) = 0 := by
  refine List.count_eq_zero.mpr (fun h => ?_)
  rcases fmt2_chars q '"' h with h1 | h1 | h1 <;> simp_all

theorem count_amp_escChar (c : Char) :
    (escChar c).count '&' =
      (if c = '&' then 1 else 0) + (if c = '<' then 1 else 0) + (if c = '>' then 1 else 0)
        + (if c = '"' then 1 else 0) + (if c = '\'' then 1 else 0) := by
  unfold escChar
  split_ifs with h1 h2 h3 h4 h5 <;> simp_all [List.count_cons]

theorem count_flatMap_escChar (l : List Char) :
    (l.flatMap escChar).count '&' =
      l.count '&' + l.count '<' + l.count '>' + l.count '"' + l.count '\'' := by
  induction l with
  | nil => simp
  | cons c rest ih =>
    simp only [List.flatMap_cons, List.count_append, List.count_cons, ih, count_amp_escChar]
    have : ∀ d : Char, (if (c == d) = true then 1 else 0) = (if c = d then 1 else 0) := by
      intro d; by_cases h : c = d <;> simp [h]
    rw [this, this, this, this, this]
    split_ifs <;> omega

/-- The poll loop returns `true` iff one of its `fuel` polls sees a 200. -/
theorem pagesPollLoop_iff (responses : Nat → Option Nat) :
    ∀ (fuel k : Nat),
      pagesPollLoop responses k fuel = true ↔ ∃ j < fuel, responses (k + j) = some 200 := by
  intro fuel
  induction fuel with
  | zero => intro k; simp [pagesPollLoop]
  | succ n ih =>
    intro k
    rw [pagesPollLoop]
    split_ifs with h
    · simp only [true_iff]
      exact ⟨0, Nat.succ_pos n, by simpa using h⟩
    · rw [ih (k + 1)]
      constructor
      · rintro ⟨j, hj, hr⟩
        exact ⟨j + 1, by omega, by rw [show k + (j + 1) = k + 1 + j by omega]; exact hr⟩
      · rintro ⟨j, hj, hr⟩
        match j with
        | 0 => exact absurd (by simpa using hr) h
        | j + 1 => exact ⟨j, by omega, by rw [show k + 1 + j = k + (j + 1) by omega]; exact hr⟩

/-! ## Claim theorems -/

/-- C1: every user-supplied text embedded by `generate_table_html_from_df`
(title and subtitle, substituted as `htmlEscape` of the input at
src/app.py:1937-1938, and every cell's display value, embedded through
`plainCellHtml`/`barCellHtml`/`headCellHtml` at src/app.py:1849,1858-1884)
appears only HTML-escaped: the escaped text contains no raw `<`, `>` or `"`
at all, every `<`, `&`, `>`, `"`, `'` of the input contributes exactly one
entity-starting `&`, and the counts of `<` and `"` in each emitted data-region
fragment are those of the fixed markup alone, independent of the user text. -/
theorem C1_user_text_escaped (v : String) :
    ('<' ∉ (htmlEscape v).data ∧ '>' ∉ (htmlEscape v).data ∧ '"' ∉ (htmlEscape v).data)
    ∧ countChar '&' (htmlEscape v)
        = countChar '&' v + countChar '<' v + countChar '>' v + countChar '"' v + countChar '\'' v
    ∧ (∀ p : ℚ, countChar '<' (barCellHtml v p) = countChar '<' (barCellHtml "" 0)
        ∧ countChar '"' (barCellHtml v p) = countChar '"' (barCellHtml "" 0))
    ∧ (countChar '<' (plainCellHtml v) = countChar '<' (plainCellHtml "")
        ∧ countChar '"' (plainCellHtml v) = countChar '"' (plainCellHtml ""))
    ∧ (∀ t cls : String,
        countChar '<' (headCellHtml t cls (htmlEscape v))
            = countChar '<' (headCellHtml t cls (htmlEscape ""))
        ∧ countChar '"' (headCellHtml t cls (htmlEscape v))
            = countChar '"' (headCellHtml t cls (htmlEscape ""))) := by
  refine ⟨⟨htmlEscape_no_lt v, htmlEscape_no_gt v, htmlEscape_no_quot v⟩,
    count_flatMap_escChar v.data, ?_, ?_, ?_⟩
  · intro p
    constructor <;>
      simp [barCellHtml, countChar_append, countChar_htmlEscape_lt, countChar_htmlEscape_quot,
        countChar_fmt2_lt, countChar_fmt2_quot]
  · constructor <;>
      simp [plainCellHtml, countChar_append, countChar_htmlEscape_lt, countChar_htmlEscape_quot]
  · intro t cls
    constructor <;>
      simp [headCellHtml, countChar_append, countChar_htmlEscape_lt, countChar_htmlEscape_quot]

/-- Witness for C1 at a concrete string with all three special characters. -/
theorem C1_user_text_escaped_witness : '<' ∉ (htmlEscape "<a&b\"").data :=
  (C1_user_text_escaped "<a&b\"").1.1

/-- C2: `generate_table_html_from_df` is deterministic — two calls with
identical template, dataframe contents and configuration values return
byte-identical HTML strings. -/
theorem C2_renderer_deterministic (t1 t2 : String) (a1 a2 : RenderArgs)
    (ht : t1 = t2) (ha : a1 = a2) :
    generate_table_html_from_df t1 a1 = generate_table_html_from_df t2 a2 := by
  subst ht; subst ha; rfl

/-- Witness for C2 at a concrete (template, dataframe, config). -/
theorem C2_renderer_deterministic_witness :
    generate_table_html_from_df "<html>[[TITLE]][[TABLE_ROWS]]</html>"
        { df := ⟨[("Name", false), ("Score", true)], [[some "A", some "10"]]⟩,
          title := "T&1", subtitle := "s", brand_logo_url := "u",
          brand_logo_alt := "alt", brand_class := "an" }
      = generate_table_html_from_df "<html>[[TITLE]][[TABLE_ROWS]]</html>"
        { df := ⟨[("Name", false), ("Score", true)], [[some "A", some "10"]]⟩,
          title := "T&1", subtitle := "s", brand_logo_url := "u",
          brand_logo_alt := "alt", brand_class := "an" } :=
  C2_renderer_deterministic _ _ _ _ rfl rfl

/-- The spec's denominator rule, stated in its own words over the parsed
override and the column maximum when available: "an explicit override if
provided and positive, else the column's own maximum (falling back to 1.0 if
the maximum is non-positive or unavailable)". -/
def spec_bar_denominator (override : Option ℚ) (columnMax : Option ℚ) : ℚ :=
  let fallbackD : ℚ :=
    match columnMax with
    | some m => if 0 < m then m else 1
    | none => 1
  match override with
  | some M => if 0 < M then M else fallbackD
  | none => fallbackD

/-- The override value the code would use: `float(str(override).strip())` when
provided and non-blank, `none` when absent, blank, or unparseable. -/
def parsedOverride (ov : Option String) : Option ℚ :=
  ov.bind (fun s =>
    let t := pyStrip s
    if t.data.isEmpty then none else pyFloatOpt t)

/-- The column's maximum of the parsed values, when the column is non-empty. -/
def columnMaxOpt (colVals : List (Option String)) : Option ℚ :=
  match colVals.map parse_number with
  | [] => none
  | v :: vs => some (vs.foldl max v)

theorem code_fallback (colVals : List (Option String)) :
    (if (match colVals.map parse_number with | [] => (0:ℚ) | v :: vs => vs.foldl max v) > 0
     then (match colVals.map parse_number with | [] => (0:ℚ) | v :: vs => vs.foldl max v) else 1)
    = match columnMaxOpt colVals with
      | some m => if 0 < m then m else 1
      | none => 1 := by
  unfold columnMaxOpt
  cases h : colVals.map parse_number with
  | nil => norm_num
  | cons a l => simp [gt_iff_lt]

theorem bar_max_entry_eq_spec (colVals : List (Option String)) (ov : Option String) :
    bar_max_entry colVals ov = spec_bar_denominator (parsedOverride ov) (columnMaxOpt colVals) := by
  cases ov with
  | none =>
    unfold bar_max_entry parsedOverride spec_bar_denominator
    dsimp only
    exact code_fallback colVals
  | some s =>
    unfold bar_max_entry parsedOverride spec_bar_denominator
    dsimp only [Option.bind]
    by_cases hb : (pyStrip s).data.isEmpty
    · simp only [hb, if_true]
      exact code_fallback colVals
    · simp only [hb, if_false, Bool.false_eq_true]
      cases hp : pyFloatOpt (pyStrip s) with
      | none =>
        simp only [hp]
        exact code_fallback colVals
      | some q =>
        simp only [hp]
        by_cases hq : q > 0
        · simp [hq, gt_iff_lt]
        · simp only [hq, if_false]
          exact code_fallback colVals

theorem bar_max_entry_pos (colVals : List (Option String)) (ov : Option String) :
    0 < bar_max_entry colVals ov := by
  rw [bar_max_entry_eq_spec]
  unfold spec_bar_denominator
  cases parsedOverride ov with
  | none =>
    cases columnMaxOpt colVals with
    | none => norm_num
    | some m =>
      dsimp only
      split_ifs with h
      · exact h
      · norm_num
  | some M =>
    cases columnMaxOpt colVals with
    | none =>
      dsimp only
      split_ifs with h
      · exact h
      · norm_num
    | some m =>
      dsimp only
      split_ifs with h h2
      · exact h
      · exact h2
      · norm_num

theorem bar_fill_pct_formula (colVals : List (Option String)) (ov : Option String)
    (v : Option String) :
    bar_fill_pct colVals ov v
      = max 0 (min 100 (parse_number v / bar_max_entry colVals ov * 100)) := by
  unfold bar_fill_pct bar_denom
  dsimp only
  rw [if_neg (bar_max_entry_pos colVals ov).ne']

theorem bar_fill_example_den : bar_max_entry [some "10"] (some "100") = 100 := by
  rw [bar_max_entry_eq_spec]
  rw [show parsedOverride (some "100")
      = some ((1 : ℚ) * ((100 : Nat) : ℚ) / 10 ^ (0 : Nat)) from rfl]
  norm_num [spec_bar_denominator]

theorem bar_fill_example_over : bar_fill_pct [some "10"] (some "100") (some "150") = 100 := by
  rw [bar_fill_pct_formula, bar_fill_example_den,
    show parse_number (some "150") = (1 : ℚ) * ((150 : Nat) : ℚ) / 10 ^ (0 : Nat) from rfl]
  norm_num

theorem bar_fill_example_neg : bar_fill_pct [some "10"] (some "100") (some "-10") = 0 := by
  rw [bar_fill_pct_formula, bar_fill_example_den,
    show parse_number (some "-10") = (-1 : ℚ) * ((10 : Nat) : ℚ) / 10 ^ (0 : Nat) from rfl]
  norm_num

/-- C3: the bar-column normalization denominator is the positive parsed
override when one is given, else the column's maximum of the parsed values,
else `1.0` (exactly the spec's rule); it is always positive; the rendered
fill percentage is `clamp(v/denominator*100, 0, 100)`; and the spec's two
probes hold: override 100 with value 150 fills 100, value −10 fills 0. -/
theorem C3_bar_normalization (colVals : List (Option String)) (ov : Option String)
    (v : Option String) :
    bar_max_entry colVals ov = spec_bar_denominator (parsedOverride ov) (columnMaxOpt colVals)
    ∧ 0 < bar_max_entry colVals ov
    ∧ bar_fill_pct colVals ov v
        = max 0 (min 100 (parse_number v / bar_max_entry colVals ov * 100))
    ∧ bar_fill_pct [some "10"] (some "100") (some "150") = 100
    ∧ bar_fill_pct [some "10"] (some "100") (some "-10") = 0 :=
  ⟨bar_max_entry_eq_spec colVals ov, bar_max_entry_pos colVals ov,
    bar_fill_pct_formula colVals ov v, bar_fill_example_over, bar_fill_example_neg⟩

/-- Witness for C3: the spec's override probe evaluated through the theorem. -/
theorem C3_bar_normalization_witness :
    bar_fill_pct [some "10"] (some "100") (some "150") = 100 :=
  (C3_bar_normalization [] none none).2.2.2.1

/-- The claim's classification rule, in its own words, with "at least half"
read as a true half of the sample size: at least half the sampled values
(and at least 3) parse as numbers after stripping non-numeric symbols. -/
def spec_guess_numeric (numericDtype : Bool) (values : List (Option String)) : Bool :=
  numericDtype ||
    (let sample := (values.filterMap id).take 20
     let k := sample.countP (fun v => (pyFloatOpt ⟨v.data.filter numAllowed⟩).isSome)
     decide (sample.length ≤ 2 * k) && decide (3 ≤ k))

/-- C4 counterexample: a 7-value column in which exactly 3 values parse as
numbers.  `guess_column_type` uses the threshold `max(3, len(sample)//2) = 3`
and says "num", while the claim's "at least half of the sample (and at least
3 values)" demands 4 of 7 and says text. -/
theorem C4_counterexample :
    guess_column_type false
        [some "1", some "2", some "3", some "a/", some "b/", some "c/", some "d/"] = "num"
    ∧ spec_guess_numeric false
        [some "1", some "2", some "3", some "a/", some "b/", some "c/", some "d/"] = false := by
  constructor <;> decide

/-- C4 (amended): `guess_column_type` returns "num" iff the dtype is already
numeric or, over the sample of up to 20 non-null stringified values, at least
`max(3, ⌊sample/2⌋)` values parse as numbers after stripping non-numeric
symbols; otherwise it returns "text"; and the claim's probe columns classify
as stated. -/
theorem C4_column_type_inference (dty : Bool) (values : List (Option String)) :
    (guess_column_type dty values = "num"
      ↔ (dty = true ∨
          ((values.filterMap id).take 20 ≠ []
            ∧ ((values.filterMap id).take 20).countP
                  (fun v => (pyFloatOpt ⟨v.data.filter numAllowed⟩).isSome)
                ≥ max 3 (((values.filterMap id).take 20).length / 2))))
    ∧ (guess_column_type dty values = "num" ∨ guess_column_type dty values = "text")
    ∧ guess_column_type false [some "$1,200", some "$3,400.50", some "$0"] = "num"
    ∧ guess_column_type false [some "N/A", some "TBD", some "—"] = "text" := by
  refine ⟨?_, ?_, by decide, by decide⟩
  · unfold guess_column_type
    by_cases hd : dty
    · simp [hd]
    · simp only [hd, if_false, Bool.false_eq_true, false_or]
      split_ifs with h1 h2
      · constructor
        · intro hc; exact absurd hc (by decide)
        · rintro ⟨hne, -⟩
          exact absurd (List.isEmpty_iff.mp h1) hne
      · constructor
        · intro _
          exact ⟨fun hc => h1 (by simp [hc]), h2⟩
        · intro _; rfl
      · constructor
        · intro hc; exact absurd hc (by decide)
        · rintro ⟨-, hk⟩; exact absurd hk h2
  · unfold guess_column_type
    dsimp only
    split_ifs <;> simp

/-- Witness for C4 at a numeric-dtype column. -/
theorem C4_column_type_inference_witness : guess_column_type true [] = "num" :=
  (C4_column_type_inference true []).1.mpr (Or.inl rfl)

/-- The brand-to-repo base lookup as the code performs it
(src/app.py:73-74). -/
def brandPrefixOf (brand : String) : String :=
  ((BRAND_REPO_PREFIX_FULL.find? (fun p => p.1 = pyStrip brand)).map (·.2)).getD "ActionNetwork"

theorem natToDecStr_2025 : natToDecStr 2025 = "2025" := by
  simp [natToDecStr, natToDigitsRev]
  decide

/-- C5 counterexample: in October 2025 the derived name for "Action Network"
is "ActionNetworkto25" — the code inserts a literal "t" between the brand
base and the month code (src/app.py:78), so the name is not the plain
concatenation `{BrandPrefix}{MonthCode}{YearSuffix}` the claim states. -/
theorem C5_counterexample :
    suggested_repo_name "Action Network" 10 2025 = "ActionNetworkto25"
    ∧ suggested_repo_name "Action Network" 10 2025
        ≠ "ActionNetwork" ++ MONTH_CODE 10 ++ lastTwo (natToDecStr 2025) := by
  unfold suggested_repo_name
  rw [natToDecStr_2025]
  constructor
  · decide
  · decide

theorem MONTH_CODE_len (m : Nat) : (MONTH_CODE m).data.length = 1 := by
  unfold MONTH_CODE
  cases hf : MONTH_CODE_TABLE.find? (fun p => p.1 = m) with
  | none => rfl
  | some x =>
    have hx := List.mem_of_find?_eq_some hf
    fin_cases hx <;> rfl

theorem month_code_next_ne (m : Nat) (h1 : 1 ≤ m) (h2 : m ≤ 12) :
    MONTH_CODE m ≠ MONTH_CODE (if m = 12 then 1 else m + 1) := by
  interval_cases m <;> decide

theorem append_single_ne (p c1 c2 y1 y2 : String) (h1 : c1.data.length = 1)
    (h2 : c2.data.length = 1) (hne : c1 ≠ c2) :
    p ++ "t" ++ c1 ++ y1 ≠ p ++ "t" ++ c2 ++ y2 := by
  intro h
  have hd := congrArg String.data h
  simp only [String.data_append, List.append_assoc] at hd
  have h4 := List.append_cancel_left hd
  have h5 := List.append_cancel_left h4
  exact hne (String.ext (List.append_inj h5 (h1.trans h2.symm)).1)

/-- C5 (amended): the derived repository name is
`{BrandPrefix}t{MonthCode}{YearSuffix}` — the fixed per-brand base, a literal
"t", the single-letter UTC month code, and the last two digits of the UTC
year; two calls in the same UTC month agree, and a call in the next UTC month
(rolling the year over from December) yields a different name carrying the
next month's code. -/
theorem C5_repo_naming (brand : String) (m y : Nat) (h1 : 1 ≤ m) (h2 : m ≤ 12) :
    suggested_repo_name brand m y
        = brandPrefixOf brand ++ "t" ++ MONTH_CODE m ++ lastTwo (natToDecStr y)
    ∧ suggested_repo_name brand m y = suggested_repo_name brand m y
    ∧ (∀ m' y' : Nat, m' = (if m = 12 then 1 else m + 1) →
        y' = (if m = 12 then y + 1 else y) →
        suggested_repo_name brand m y ≠ suggested_repo_name brand m' y'
        ∧ suggested_repo_name brand m' y'
            = brandPrefixOf brand ++ "t" ++ MONTH_CODE m' ++ lastTwo (natToDecStr y')) := by
  refine ⟨rfl, rfl, ?_⟩
  rintro m' y' rfl rfl
  refine ⟨?_, rfl⟩
  show brandPrefixOf brand ++ "t" ++ MONTH_CODE m ++ lastTwo (natToDecStr y) ≠ _
  exact append_single_ne _ _ _ _ _ (MONTH_CODE_len m) (MONTH_CODE_len _)
    (month_code_next_ne m h1 h2)

/-- Witness for C5 at brand "Action Network", October 2025. -/
theorem C5_repo_naming_witness :
    suggested_repo_name "Action Network" 10 2025
      ≠ suggested_repo_name "Action Network" 11 2025 :=
  ((C5_repo_naming "Action Network" 10 2025 (by decide) (by decide)).2.2
    11 2025 (by decide) (by decide)).1

/-- C6 counterexample: with an existing destination file and no overwrite
confirmation, the code does not raise any error, let alone a
`DestinationExistsError` (no such error exists anywhere in src/app.py): the
publish button is rendered disabled (`can_publish` is false,
src/app.py:2761-2765), the click handler never runs, no error is surfaced and
zero PUT calls are made. -/
theorem C6_counterexample :
    (publish_flow
        { html_generated := true, publish_owner := "bettercollective26",
          repo_name := "ActionNetworkto25", widget_file_name := "my-table.html",
          installation_token := "tok", created_by_user := "user",
          file_exists := true, allow_swap := false }
        true "<html></html>" none (200, 0) ⟨200, "abc", 200⟩ (fun _ => some 200)).error = none
    ∧ (publish_flow
        { html_generated := true, publish_owner := "bettercollective26",
          repo_name := "ActionNetworkto25", widget_file_name := "my-table.html",
          installation_token := "tok", created_by_user := "user",
          file_exists := true, allow_swap := false }
        true "<html></html>" none (200, 0) ⟨200, "abc", 200⟩ (fun _ => some 200)).putCalls = [] := by
  constructor <;> rfl

/-- C6 (amended): when the destination file already exists and the user has
not ticked the overwrite confirmation, the gate disables publishing
(`can_publish = false`) so the handler is unreachable and zero PUT calls are
made — whatever else the session holds; with the confirmation ticked (and the
other gate inputs satisfied) the upload step is reachable: a PUT is issued. -/
theorem C6_conflict_gate :
    (∀ (g : PublishGate), g.file_exists = true → g.allow_swap = false →
      ∀ (click : Bool) (html : String) (rce : Option String) (pt : Nat × Nat)
        (upT : UploadTransport) (resp : Nat → Option Nat),
        can_publish g = false
        ∧ (publish_flow g click html rce pt upT resp).putCalls = []
        ∧ (publish_flow g click html rce pt upT resp).error = none)
    ∧ (∀ (g : PublishGate), g.file_exists = true → g.allow_swap = true →
        g.html_generated = true → strTrue g.publish_owner = true →
        strTrue g.repo_name = true → strTrue g.widget_file_name = true →
        strTrue g.installation_token = true → strTrue g.created_by_user = true →
        ∀ (html : String) (pt : Nat × Nat) (upT : UploadTransport)
          (resp : Nat → Option Nat),
          strTrue html = true →
          (upT.getStatus = 200 ∨ upT.getStatus = 404) →
          (publish_flow g true html none pt upT resp).putCalls ≠ []) := by
  constructor
  · intro g hex hsw click html rce pt upT resp
    have hcp : can_publish g = false := by
      unfold can_publish swap_confirmed
      rw [hex, hsw]
      simp
    refine ⟨hcp, ?_, ?_⟩ <;>
      · unfold publish_flow
        rw [hcp]
        simp
  · intro g hex hsw hg ho hr hw ht hc html pt upT resp hhtml hget
    have hcp : can_publish g = true := by
      unfold can_publish swap_confirmed
      rw [hex, hsw, hg, ho, hr, hw, ht, hc]
      rfl
    unfold publish_flow
    rw [hcp, hhtml]
    simp only [Bool.and_true, Bool.not_true, Bool.false_eq_true, if_false, Bool.true_and]
    unfold upload_file_to_github
    rcases hget with hget | hget <;>
      · rw [hget]
        dsimp only
        split_ifs <;> simp_all

/-- Witness for C6 (amended) at a concrete gate. -/
theorem C6_conflict_gate_witness :
    can_publish
        { html_generated := true, publish_owner := "o", repo_name := "r",
          widget_file_name := "f.html", installation_token := "t",
          created_by_user := "u", file_exists := true, allow_swap := false } = false
    ∧ (publish_flow
        { html_generated := true, publish_owner := "o", repo_name := "r",
          widget_file_name := "f.html", installation_token := "t",
          created_by_user := "u", file_exists := true, allow_swap := true }
        true "<html>" none (200, 0) ⟨404, "", 201⟩ (fun _ => some 200)).putCalls ≠ [] :=
  ⟨(C6_conflict_gate.1
      { html_generated := true, publish_owner := "o", repo_name := "r",
        widget_file_name := "f.html", installation_token := "t",
        created_by_user := "u", file_exists := true, allow_swap := false }
      rfl rfl true "<html>" none (200, 0) ⟨404, "", 201⟩ (fun _ => some 200)).1,
    C6_conflict_gate.2
      { html_generated := true, publish_owner := "o", repo_name := "r",
        widget_file_name := "f.html", installation_token := "t",
        created_by_user := "u", file_exists := true, allow_swap := true }
      rfl rfl rfl rfl rfl rfl rfl rfl "<html>" (200, 0) ⟨404, "", 201⟩
      (fun _ => some 200) rfl (Or.inr rfl)⟩

/-- C7: `upload_file_to_github` first GETs the file's hash; on 200 (with the
hash present) the single PUT carries that hash, on 404 the PUT carries no
hash (create); every PUT's content is the base64 of the UTF-8 bytes of the
input; on any other GET status it fails before any PUT; a PUT status outside
`{200, 201}` (in particular any non-2xx) fails the operation; and success
implies the PUT was accepted. -/
theorem C7_upload_semantics (t : UploadTransport) (content message branch : String) :
    (t.getStatus = 200 → t.getSha ≠ "" →
      (upload_file_to_github t content message branch).putCalls
        = [⟨message, b64encode (utf8Bytes content), branch, some t.getSha⟩])
    ∧ (t.getStatus = 404 →
      (upload_file_to_github t content message branch).putCalls
        = [⟨message, b64encode (utf8Bytes content), branch, none⟩])
    ∧ (∀ p ∈ (upload_file_to_github t content message branch).putCalls,
        p.content = b64encode (utf8Bytes content))
    ∧ (t.getStatus ≠ 200 → t.getStatus ≠ 404 →
        (upload_file_to_github t content message branch).putCalls = []
        ∧ (upload_file_to_github t content message branch).error ≠ none)
    ∧ (¬(t.putStatus = 200 ∨ t.putStatus = 201) → (t.getStatus = 200 ∨ t.getStatus = 404) →
        (upload_file_to_github t content message branch).error ≠ none)
    ∧ ((upload_file_to_github t content message branch).error = none →
        (t.putStatus = 200 ∨ t.putStatus = 201)) := by
  unfold upload_file_to_github
  refine ⟨?_, ?_, ?_, ?_, ?_, ?_⟩
  · intro h200 hsha
    rw [if_neg (by simp [h200])]
    dsimp only
    split_ifs with h1 h2 <;> simp_all
  · intro h404
    rw [if_neg (by simp [h404])]
    dsimp only
    split_ifs with h1 h2 <;> simp_all
  · intro p hp
    split_ifs at hp <;> simp_all
  · intro hn200 hn404
    rw [if_pos ⟨hn200, hn404⟩]
    simp
  · intro hput hget
    rw [if_neg (by rcases hget with h | h <;> simp [h])]
    dsimp only
    split_ifs with h1 h2 <;> simp_all
  · intro hok
    by_cases hget : t.getStatus ≠ 200 ∧ t.getStatus ≠ 404
    · rw [if_pos hget] at hok
      simp at hok
    · rw [if_neg hget] at hok
      dsimp only at hok
      by_cases hput : t.putStatus = 200 ∨ t.putStatus = 201
      · exact hput
      · rw [if_neg hput] at hok
        simp at hok

/-- Witness for C7: GET 200 with hash "abc", content "hello" — the PUT
carries sha "abc" and the base64 of the UTF-8 bytes of "hello". -/
theorem C7_upload_semantics_witness :
    (upload_file_to_github ⟨200, "abc", 200⟩ "hello" "m" "main").putCalls
      = [⟨"m", "aGVsbG8=", "main", some "abc"⟩] := by
  rw [(C7_upload_semantics ⟨200, "abc", 200⟩ "hello" "m" "main").1 rfl (by decide)]
  decide

/-- C8: `ensure_pages_enabled` is a no-op on GET 200, silently skips on 403,
POSTs the enable request exactly when the GET returns 404 (failing unless the
POST returns 201/202), and fails on any other GET status. -/
theorem C8_pages_enablement (g p : Nat) :
    (g = 200 → ensure_pages_enabled g p = ⟨false, none⟩)
    ∧ (g = 403 → ensure_pages_enabled g p = ⟨false, none⟩)
    ∧ ((ensure_pages_enabled g p).posted = true ↔ g = 404)
    ∧ (g = 404 → ((ensure_pages_enabled g p).error = none ↔ (p = 201 ∨ p = 202)))
    ∧ (g ≠ 200 → g ≠ 403 → g ≠ 404 →
        ensure_pages_enabled g p = ⟨false, some "Error Checking GitHub Pages"⟩) := by
  unfold ensure_pages_enabled
  refine ⟨?_, ?_, ?_, ?_, ?_⟩
  · intro h; rw [if_pos h]
  · intro h
    rw [if_neg (by omega), if_neg (by simp [h]), if_pos h]
  · split_ifs with h1 h2 h3 h4 <;> simp_all
  · intro h404
    rw [if_neg (by omega), if_neg (by simp [h404]), if_neg (by omega)]
    split_ifs with h <;> simp_all
  · intro hn200 hn403 hn404
    rw [if_neg hn200, if_pos ⟨hn404, hn403⟩]

/-- Witness for C8 at GET 404, POST 500: the enable POST was sent and the
operation fails. -/
theorem C8_pages_enablement_witness :
    (ensure_pages_enabled 404 500).posted = true
    ∧ (ensure_pages_enabled 404 500).error ≠ none :=
  ⟨((C8_pages_enablement 404 500).2.2.1).mpr rfl,
    fun hn => by
      rcases ((C8_pages_enablement 404 500).2.2.2.1 rfl).mp hn with h | h <;>
        exact absurd h (by decide)⟩

/-- The poll loop only inspects its `fuel` first responses. -/
theorem pagesPollLoop_congr (resp1 resp2 : Nat → Option Nat) :
    ∀ (fuel k : Nat), (∀ j < fuel, resp1 (k + j) = resp2 (k + j)) →
      pagesPollLoop resp1 k fuel = pagesPollLoop resp2 k fuel := by
  intro fuel
  induction fuel with
  | zero => intro k _; rfl
  | succ n ih =>
    intro k hj
    rw [pagesPollLoop, pagesPollLoop]
    have h0 := hj 0 (Nat.succ_pos n)
    rw [Nat.add_zero] at h0
    rw [h0]
    split_ifs with h
    · rfl
    · exact ih (k + 1) (fun j hjn => by
        have := hj (j + 1) (by omega)
        rwa [show k + (j + 1) = k + 1 + j by omega] at this)

/-- C9: `wait_until_pages_live` returns true iff one of its boundedly many
polls (⌈timeout/interval⌉ of them; 45 at the caller's 90 s / 2 s) sees a 200;
it inspects nothing beyond that bound (termination within the bound, with
exceptions modelled as `none` responses and swallowed); and the click handler
treats a false result as a warning, not an error: the publish outcome carries
no error, stores the published URL, and only flags the still-deploying
warning. -/
theorem C9_liveness_poll :
    (∀ (url : String) (resp : Nat → Option Nat) (t i : Nat), url ≠ "" →
      (wait_until_pages_live url resp t i = true ↔ ∃ k < numPolls t i, resp k = some 200))
    ∧ (∀ (resp1 resp2 : Nat → Option Nat) (url : String) (t i : Nat),
        (∀ k < numPolls t i, resp1 k = resp2 k) →
        wait_until_pages_live url resp1 t i = wait_until_pages_live url resp2 t i)
    ∧ numPolls 90 2 = 45
    ∧ (∀ (g : PublishGate) (html : String) (pt : Nat × Nat) (upT : UploadTransport)
        (resp : Nat → Option Nat),
        can_publish g = true → strTrue html = true →
        (upT.getStatus = 200 ∨ upT.getStatus = 404) →
        (upT.putStatus = 200 ∨ upT.putStatus = 201) →
        wait_until_pages_live
            (compute_pages_url g.publish_owner g.repo_name g.widget_file_name) resp 90 2 = false →
        (publish_flow g true html none pt upT resp).error = none
        ∧ (publish_flow g true html none pt upT resp).published_url
            = some (compute_pages_url g.publish_owner g.repo_name g.widget_file_name)
        ∧ (publish_flow g true html none pt upT resp).warning = true) := by
  refine ⟨?_, ?_, by decide, ?_⟩
  · intro url resp t i hurl
    unfold wait_until_pages_live
    rw [if_neg hurl]
    rw [pagesPollLoop_iff resp (numPolls t i) 0]
    simp
  · intro resp1 resp2 url t i hk
    unfold wait_until_pages_live
    split_ifs with h
    · rfl
    · exact pagesPollLoop_congr resp1 resp2 (numPolls t i) 0 (fun j hj => by
        simpa using hk j hj)
  · intro g html pt upT resp hcp hhtml hget hput hlive
    unfold publish_flow
    rw [hcp, hhtml]
    simp only [Bool.and_true, Bool.not_true, Bool.false_eq_true, if_false, Bool.true_and]
    have hup : (upload_file_to_github upT html
        ("Add/Update " ++ g.widget_file_name ++ " from Branded Table App") "main").error
        = none := by
      unfold upload_file_to_github
      rw [if_neg (by rcases hget with h | h <;> simp [h])]
      dsimp only
      rw [if_pos hput]
    rw [hup]
    rw [hlive]
    exact ⟨rfl, rfl, rfl⟩

/-- Witness for C9 at a concrete gate with a never-200 poll trace: no error,
URL stored, warning set. -/
theorem C9_liveness_poll_witness :
    (publish_flow
        { html_generated := true, publish_owner := "o", repo_name := "r",
          widget_file_name := "f.html", installation_token := "t",
          created_by_user := "u", file_exists := false, allow_swap := false }
        true "<html>" none (200, 0) ⟨404, "", 201⟩ (fun _ => some 404)).error = none
    ∧ (publish_flow
        { html_generated := true, publish_owner := "o", repo_name := "r",
          widget_file_name := "f.html", installation_token := "t",
          created_by_user := "u", file_exists := false, allow_swap := false }
        true "<html>" none (200, 0) ⟨404, "", 201⟩ (fun _ => some 404)).warning = true := by
  have h := (C9_liveness_poll.2.2.2
    { html_generated := true, publish_owner := "o", repo_name := "r",
      widget_file_name := "f.html", installation_token := "t",
      created_by_user := "u", file_exists := false, allow_swap := false }
    "<html>" (200, 0) ⟨404, "", 201⟩ (fun _ => some 404)
    rfl rfl (Or.inr rfl) (Or.inr rfl) (by decide))
  exact ⟨h.1, h.2.2⟩

/-- Everything `compute_pages_url` keeps of the filename: leading slashes
stripped, then surrounding whitespace. -/
def cleanedFilename (filename : String) : String := pyStrip (lstripSlash filename)

/-- C10 counterexample: the filename `" /"` consists only of slashes and
whitespace, yet `compute_pages_url` does not substitute the default — because
`lstrip("/")` runs before `.strip()`, the slash survives and the URL ends in
`//` (src/app.py:2043). -/
theorem C10_counterexample :
    (" /" : String).data.all (fun c => c = '/' || pyIsSpace c) = true
    ∧ compute_pages_url "o" "r" " /" = "https://o.github.io/r//"
    ∧ compute_pages_url "o" "r" " /" ≠ "https://o.github.io/r/branded_table.html" := by
  refine ⟨by decide, by decide, by decide⟩

/-- C10 (amended): `compute_pages_url` strips leading slashes, then
surrounding whitespace, substitutes the default `branded_table.html` exactly
when that result is empty (in particular for an empty filename, or whitespace
possibly preceded by slashes), and always returns
`https://{user}.github.io/{repo}/{f}` with `f` non-empty — though `f` may
itself retain a slash when whitespace precedes the slashes. -/
theorem C10_pages_url (user repo filename : String) :
    compute_pages_url user repo filename
      = "https://" ++ pyStrip user ++ ".github.io/" ++ pyStrip repo ++ "/"
          ++ (if cleanedFilename filename = "" then "branded_table.html"
              else cleanedFilename filename)
    ∧ (if cleanedFilename filename = "" then "branded_table.html"
        else cleanedFilename filename) ≠ ""
    ∧ (cleanedFilename filename = "" →
        compute_pages_url user repo filename
          = "https://" ++ pyStrip user ++ ".github.io/" ++ pyStrip repo ++ "/"
              ++ "branded_table.html") := by
  refine ⟨rfl, ?_, ?_⟩
  · split_ifs with h
    · decide
    · exact h
  · intro h
    unfold compute_pages_url
    dsimp only
    rw [show pyStrip (lstripSlash filename) = "" from h]
    rfl

/-- Witness for C10 at filename "///": the default is substituted. -/
theorem C10_pages_url_witness :
    compute_pages_url "o" "r" "///" = "https://o.github.io/r/branded_table.html" :=
  (C10_pages_url "o" "r" "///").2.2 rfl

end BrandedTable
